import Mathlib

/-!
Shallow embedding of the `ahernandez9/rockets` telemetry pipeline.

The embedding covers, translated from the Go sources:

* the data model (`internal/models`): `Rocket`, `RocketStatus`,
  `MessageMetadata`, `RocketMessage` and the per-type payload structs;
* the in-memory state store (`internal/repository/inmemory`):
  `Save`, `FindByID`, `FindAll`, `GetCount` over a key/value association
  list standing for the Go `map[string]*models.Rocket` (Go map assignment
  becomes replace-or-append; `FindAll`'s `sort.Slice` by ascending id
  becomes an insertion sort by the same key);
* the reconciler (`messageService.handleMessage` and its per-type
  handlers in `internal/service/message.go`; the pre-refactor
  `RocketService.handleMessage` in `rocket_service.go` has the same
  staleness/dispatch semantics);
* the two channel-backed bus implementations:
  `ChannelPubSub.Publish`/`Close` (pre-refactor `internal/pubsub`) and
  the `channel` package's `PubSub.Publish`.

Go `int`/`int64` fields are modelled as `Int`; no claim exercises values
anywhere near 2^63, so two's-complement wraparound is not modelled.
Timestamps (`time.Time`) are carried as opaque strings: the code only
copies them, never compares them.  A Go `error` result is `Option String`
(`none` is the `nil` error).
-/

/-- `models.RocketStatus`: the two constants `StatusActive = "ACTIVE"` and
`StatusExploded = "EXPLODED"` are the only values the code ever assigns. -/
inductive RocketStatus where
  | StatusActive
  | StatusExploded
deriving DecidableEq, Repr

/-- `models.Rocket`: the per-entity state record. -/
structure Rocket where
  id : String
  type : String
  speed : Int
  mission : String
  status : RocketStatus
  explosionReason : String
  lastMessageNumber : Int
  lastUpdated : String
deriving DecidableEq, Repr

/-- `models.MessageMetadata`. -/
structure MessageMetadata where
  channel : String
  messageNumber : Int
  messageTime : String
  messageType : String
deriving DecidableEq, Repr

/-- The fields a JSON object payload may carry.  Go's `json.Unmarshal`
into each typed payload struct reads the struct's own fields and
zero-fills the missing ones, so one field bag covers every payload
object; each `parse…` projection below reads exactly the fields its
struct declares. -/
structure PayloadFields where
  type : String := ""
  launchSpeed : Int := 0
  mission : String := ""
  By : Int := 0
  reason : String := ""
  newMission : String := ""
deriving DecidableEq, Repr

/-- `msg.Message` (`interface{}`): either a JSON object (whose round trip
through `json.Marshal`/`json.Unmarshal` succeeds leniently) or a value on
which the round trip into the typed payload structs fails. -/
inductive MessagePayload where
  | obj (fields : PayloadFields)
  | bad
deriving DecidableEq, Repr

/-- `models.RocketMessage`. -/
structure RocketMessage where
  metadata : MessageMetadata
  message : MessagePayload
deriving DecidableEq, Repr

/-- `models.RocketLaunchedMessage`. -/
structure RocketLaunchedMessage where
  type : String
  launchSpeed : Int
  mission : String
deriving DecidableEq, Repr

/-- `models.RocketSpeedChangedMessage`. -/
structure RocketSpeedChangedMessage where
  By : Int
deriving DecidableEq, Repr

/-- `models.RocketExplodedMessage`. -/
structure RocketExplodedMessage where
  reason : String
deriving DecidableEq, Repr

/-- `models.RocketMissionChangedMessage`. -/
structure RocketMissionChangedMessage where
  newMission : String
deriving DecidableEq, Repr

/-- `parseMessage[models.RocketLaunchedMessage]`. -/
def parseLaunched : MessagePayload → Option RocketLaunchedMessage
  | .obj f => some ⟨f.type, f.launchSpeed, f.mission⟩
  | .bad => none

/-- `parseMessage[models.RocketSpeedChangedMessage]`. -/
def parseSpeedChanged : MessagePayload → Option RocketSpeedChangedMessage
  | .obj f => some ⟨f.By⟩
  | .bad => none

/-- `parseMessage[models.RocketExplodedMessage]`. -/
def parseExploded : MessagePayload → Option RocketExplodedMessage
  | .obj f => some ⟨f.reason⟩
  | .bad => none

/-- `parseMessage[models.RocketMissionChangedMessage]`. -/
def parseMissionChanged : MessagePayload → Option RocketMissionChangedMessage
  | .obj f => some ⟨f.newMission⟩
  | .bad => none

/-- The repository's `map[string]*models.Rocket`, as an association list
keyed by rocket id (every entry written by `Save` has key `r.id`). -/
abbrev Store := List (String × Rocket)

/-- `RocketRepository.FindByID` (minus the defensive copy, which value
semantics make implicit): first binding for the key, `none` when absent. -/
def FindByID : Store → String → Option Rocket
  | [], _ => none
  | (k, r) :: rest, id => if k = id then some r else FindByID rest id

/-- `RocketRepository.Save`: Go map assignment `r.rockets[rocket.ID] = rocket`,
i.e. replace the existing binding or append a new one. -/
def Save : Store → Rocket → Store
  | [], r => [(r.id, r)]
  | (k, x) :: rest, r => if k = r.id then (k, r) :: rest else (k, x) :: Save rest r

/-- `RocketRepository.GetCount`: `len(r.rockets)`. -/
def GetCount (st : Store) : Nat := st.length

/-- The ordering `FindAll` sorts by: ascending rocket id
(`rockets[i].ID < rockets[j].ID` under `sort.Slice` yields a list
non-decreasing in id). -/
def rocketIdLE (a b : Rocket) : Prop := a.id ≤ b.id

instance : DecidableRel rocketIdLE := fun a b =>
  inferInstanceAs (Decidable (a.id ≤ b.id))

instance : IsTotal Rocket rocketIdLE := ⟨fun a b => le_total a.id b.id⟩

instance : IsTrans Rocket rocketIdLE := ⟨fun _ _ _ h h' => le_trans h h'⟩

/-- `RocketRepository.FindAll`: copy the stored records out of the map and
sort them by ascending id. -/
def FindAll (st : Store) : List Rocket :=
  List.insertionSort rocketIdLE (st.map Prod.snd)

/-- `messageService.handleRocketLaunched`: build a fresh ACTIVE record from
the payload's type/launchSpeed/mission (`ExplosionReason` keeps the Go zero
value `""`), stamp the metadata, save. -/
def handleRocketLaunched (st : Store) (channelID : String) (msg : RocketMessage) :
    Store × Option String :=
  match parseLaunched msg.message with
  | none => (st, some "failed to unmarshal message")
  | some launchMsg =>
      let rocket : Rocket :=
        { id := channelID
          type := launchMsg.type
          speed := launchMsg.launchSpeed
          mission := launchMsg.mission
          status := .StatusActive
          explosionReason := ""
          lastMessageNumber := msg.metadata.messageNumber
          lastUpdated := msg.metadata.messageTime }
      (Save st rocket, none)

/-- `messageService.handleRocketSpeedChanged`: requires an existing record;
adds the delta for `RocketSpeedIncreased`, subtracts it otherwise. -/
def handleRocketSpeedChanged (st : Store) (channelID : String) (msg : RocketMessage) :
    Store × Option String :=
  match FindByID st channelID with
  | none => (st, some ("rocket not found: " ++ channelID))
  | some rocket =>
      match parseSpeedChanged msg.message with
      | none => (st, some "failed to unmarshal message")
      | some speedMsg =>
          let newSpeed :=
            if msg.metadata.messageType = "RocketSpeedIncreased" then
              rocket.speed + speedMsg.By
            else
              rocket.speed - speedMsg.By
          let rocket' :=
            { rocket with
                speed := newSpeed
                lastMessageNumber := msg.metadata.messageNumber
                lastUpdated := msg.metadata.messageTime }
          (Save st rocket', none)

/-- `messageService.handleRocketExploded`: requires an existing record;
sets status EXPLODED, records the reason, forces speed to 0. -/
def handleRocketExploded (st : Store) (channelID : String) (msg : RocketMessage) :
    Store × Option String :=
  match FindByID st channelID with
  | none => (st, some ("rocket not found: " ++ channelID))
  | some rocket =>
      match parseExploded msg.message with
      | none => (st, some "failed to unmarshal message")
      | some explodedMsg =>
          let rocket' :=
            { rocket with
                status := .StatusExploded
                explosionReason := explodedMsg.reason
                speed := 0
                lastMessageNumber := msg.metadata.messageNumber
                lastUpdated := msg.metadata.messageTime }
          (Save st rocket', none)

/-- `messageService.handleRocketMissionChanged`: requires an existing
record; overwrites the mission field only. -/
def handleRocketMissionChanged (st : Store) (channelID : String) (msg : RocketMessage) :
    Store × Option String :=
  match FindByID st channelID with
  | none => (st, some ("rocket not found: " ++ channelID))
  | some rocket =>
      match parseMissionChanged msg.message with
      | none => (st, some "failed to unmarshal message")
      | some missionMsg =>
          let rocket' :=
            { rocket with
                mission := missionMsg.newMission
                lastMessageNumber := msg.metadata.messageNumber
                lastUpdated := msg.metadata.messageTime }
          (Save st rocket', none)

/-- The `switch msg.Metadata.MessageType` dispatch of
`messageService.handleMessage` (the pre-refactor service splits the two
speed cases into separate handlers with identical effect). -/
def dispatchMessage (st : Store) (channelID : String) (msg : RocketMessage) :
    Store × Option String :=
  if msg.metadata.messageType = "RocketLaunched" then
    handleRocketLaunched st channelID msg
  else if msg.metadata.messageType = "RocketSpeedIncreased" then
    handleRocketSpeedChanged st channelID msg
  else if msg.metadata.messageType = "RocketSpeedDecreased" then
    handleRocketSpeedChanged st channelID msg
  else if msg.metadata.messageType = "RocketExploded" then
    handleRocketExploded st channelID msg
  else if msg.metadata.messageType = "RocketMissionChanged" then
    handleRocketMissionChanged st channelID msg
  else
    (st, some ("unknown message type: " ++ msg.metadata.messageType))

/-- `messageService.handleMessage`: look up the record for the message's
channel, drop the message as stale when one exists with
`MessageNumber <= LastMessageNumber` (returning the `nil` error), otherwise
dispatch on the message type. -/
def handleMessage (st : Store) (msg : RocketMessage) : Store × Option String :=
  match FindByID st msg.metadata.channel with
  | some existingRocket =>
      if msg.metadata.messageNumber ≤ existingRocket.lastMessageNumber then
        (st, none)
      else
        dispatchMessage st msg.metadata.channel msg
  | none => dispatchMessage st msg.metadata.channel msg

/-- The pre-refactor `pubsub.ChannelPubSub`: a bounded Go channel plus a
`closed` flag.  The buffered-but-unconsumed messages stand in for the
channel's buffer; `bufferSize` is the capacity passed to
`NewChannelPubSub`. -/
structure ChannelPubSub where
  messageChan : List RocketMessage
  bufferSize : Nat
  closed : Bool
deriving DecidableEq, Repr

/-- `ChannelPubSub.Publish`: if closed, silently ignore and return the
`nil` error; otherwise a `select` with `default` enqueues when the buffer
has room and drops (still returning `nil`) when it is full. -/
def ChannelPubSub.Publish (p : ChannelPubSub) (msg : RocketMessage) :
    ChannelPubSub × Option String :=
  if p.closed then (p, none)
  else if p.messageChan.length < p.bufferSize then
    ({ p with messageChan := p.messageChan ++ [msg] }, none)
  else (p, none)

/-- `ChannelPubSub.Close`: idempotently mark the bus closed. -/
def ChannelPubSub.Close (p : ChannelPubSub) : ChannelPubSub :=
  if p.closed then p else { p with closed := true }

/-- The refactored `channel` package's `PubSub`. -/
structure PubSub where
  messageChan : List RocketMessage
  bufferSize : Nat
  closed : Bool
deriving DecidableEq, Repr

/-- `channel.PubSub.Publish`: a `select` over the buffered send, context
cancellation, and a `default` branch.  When the send is ready it wins (when
several branches are ready Go picks one at random; only the send-ready
choice is modelled, and no claim exercises that race); with a full buffer a
done context yields the context's error, otherwise the `default` branch
drops the message and returns the `"channel full"` error. -/
def PubSub.Publish (p : PubSub) (ctxDone : Bool) (msg : RocketMessage) :
    PubSub × Option String :=
  if p.messageChan.length < p.bufferSize then
    ({ p with messageChan := p.messageChan ++ [msg] }, none)
  else if ctxDone then (p, some "context canceled")
  else (p, some "channel full")

/-! ### Concrete data used in scenario theorems, witnesses and counterexamples -/

/-- Scenario A's launch event `{id:R1, seq:1, kind:"Falcon-9", speed:500,
mission:"ARTEMIS"}`. -/
def launchMsgR1 : RocketMessage :=
  { metadata := { channel := "R1", messageNumber := 1, messageTime := "t1",
                  messageType := "RocketLaunched" }
    message := .obj { type := "Falcon-9", launchSpeed := 500, mission := "ARTEMIS" } }

/-- Scenario B's `SpeedIncreased{id:R1, seq:2, by:3000}`. -/
def speedMsgR1 : RocketMessage :=
  { metadata := { channel := "R1", messageNumber := 2, messageTime := "t2",
                  messageType := "RocketSpeedIncreased" }
    message := .obj { By := 3000 } }

/-- An explosion event for R1 at sequence 3. -/
def explodeMsgR1 : RocketMessage :=
  { metadata := { channel := "R1", messageNumber := 3, messageTime := "t3",
                  messageType := "RocketExploded" }
    message := .obj { reason := "PRESSURE_VESSEL_FAILURE" } }

/-- A speed increase for R1 at sequence 4, arriving after the explosion. -/
def lateSpeedMsgR1 : RocketMessage :=
  { metadata := { channel := "R1", messageNumber := 4, messageTime := "t4",
                  messageType := "RocketSpeedIncreased" }
    message := .obj { By := 100 } }

/-- The store after the scenario A launch and scenario B speed increase. -/
def stBeforeExplosion : Store :=
  (handleMessage (handleMessage [] launchMsgR1).1 speedMsgR1).1

/-- The store after launch, speed increase, and explosion of R1. -/
def storeAfterExplosion : Store :=
  (handleMessage stBeforeExplosion explodeMsgR1).1

/-- `SpeedIncreased{id:R1, seq:2, by:100}`, the earlier event of a reversed pair. -/
def speedIncA : RocketMessage :=
  { metadata := { channel := "R1", messageNumber := 2, messageTime := "ta",
                  messageType := "RocketSpeedIncreased" }
    message := .obj { By := 100 } }

/-- `SpeedIncreased{id:R1, seq:3, by:50}`, the later event of a reversed pair. -/
def speedIncB : RocketMessage :=
  { metadata := { channel := "R1", messageNumber := 3, messageTime := "tb",
                  messageType := "RocketSpeedIncreased" }
    message := .obj { By := 50 } }

/-- The store holding only R1's freshly launched record. -/
def st1 : Store := (handleMessage [] launchMsgR1).1

/-- An R1 record whose last applied sequence number is 5. -/
def rocketA : Rocket :=
  { id := "R1", type := "Falcon-9", speed := 3500, mission := "ARTEMIS",
    status := .StatusActive, explosionReason := "",
    lastMessageNumber := 5, lastUpdated := "t5" }

/-- A second record, for R2. -/
def rocketB : Rocket :=
  { id := "R2", type := "Atlas-V", speed := 900, mission := "VOYAGER",
    status := .StatusActive, explosionReason := "",
    lastMessageNumber := 1, lastUpdated := "t1" }

/-- A store holding `rocketA` under its id. -/
def stC : Store := [("R1", rocketA)]

/-- A store holding two records, listed here out of id order. -/
def stTwo : Store := [("R2", rocketB), ("R1", rocketA)]

/-- A replayed message for R1 with sequence 3, below `rocketA`'s 5. -/
def staleDupMsg : RocketMessage :=
  { metadata := { channel := "R1", messageNumber := 3, messageTime := "t3x",
                  messageType := "RocketMissionChanged" }
    message := .bad }

/-- A live (sequence 7) speed increase for R1. -/
def liveSpeedMsg : RocketMessage :=
  { metadata := { channel := "R1", messageNumber := 7, messageTime := "t7",
                  messageType := "RocketSpeedIncreased" }
    message := .obj { By := 100 } }

/-- `rocketA` after `liveSpeedMsg` is applied. -/
def rocketA7 : Rocket :=
  { id := "R1", type := "Falcon-9", speed := 3600, mission := "ARTEMIS",
    status := .StatusActive, explosionReason := "",
    lastMessageNumber := 7, lastUpdated := "t7" }

/-- Scenario F's `SpeedIncreased` for the unknown id R404. -/
def speedMsgR404 : RocketMessage :=
  { metadata := { channel := "R404", messageNumber := 1, messageTime := "t1",
                  messageType := "RocketSpeedIncreased" }
    message := .obj { By := 100 } }

/-- A `ChannelPubSub` whose one-slot buffer is occupied. -/
def fullBus : ChannelPubSub :=
  { messageChan := [launchMsgR1], bufferSize := 1, closed := false }

/-- A `channel` package `PubSub` whose one-slot buffer is occupied. -/
def fullBusN : PubSub :=
  { messageChan := [launchMsgR1], bufferSize := 1, closed := false }

/-- An open `ChannelPubSub` with room in its buffer. -/
def openBus : ChannelPubSub := { messageChan := [], bufferSize := 3, closed := false }

/-! ### Store lemmas -/

/-- Well-formedness: every binding in the store maps a key to a record
carrying that key as its id.  `Save` only ever writes a record under its
own id (and the reconciler passes the record's channel as its id), so
every store the running system builds satisfies this. -/
def StoreWF (st : Store) : Prop := ∀ p ∈ st, (p.2 : Rocket).id = p.1

instance (st : Store) : Decidable (StoreWF st) :=
  inferInstanceAs (Decidable (∀ p ∈ st, (p.2 : Rocket).id = p.1))

theorem FindByID_eq_id (st : Store) (id : String) (r : Rocket)
    (hwf : StoreWF st) (h : FindByID st id = some r) : r.id = id := by
  induction st with
  | nil => cases h
  | cons p rest ih =>
      obtain ⟨k, x⟩ := p
      by_cases hk : k = id
      · have hx := hwf (k, x) (List.mem_cons_self _ _)
        simp [FindByID, hk] at h
        rw [← h, hx, hk]
      · simp [FindByID, hk] at h
        exact ih (fun q hq => hwf q (List.mem_cons_of_mem _ hq)) h

theorem StoreWF_Save (st : Store) (r : Rocket) (hwf : StoreWF st) :
    StoreWF (Save st r) := by
  induction st with
  | nil =>
      intro p hp
      simp [Save] at hp
      subst hp
      rfl
  | cons q rest ih =>
      obtain ⟨k, x⟩ := q
      by_cases hk : k = r.id
      · intro p hp
        simp [Save, hk] at hp
        rcases hp with hp | hp
        · subst hp; exact hk.symm ▸ rfl
        · exact hwf p (List.mem_cons_of_mem _ hp)
      · intro p hp
        simp [Save, hk] at hp
        rcases hp with hp | hp
        · subst hp; exact hwf (k, x) (List.mem_cons_self _ _)
        · exact ih (fun q hq => hwf q (List.mem_cons_of_mem _ hq)) p hp

theorem FindByID_Save_self (st : Store) (r : Rocket) :
    FindByID (Save st r) r.id = some r := by
  induction st with
  | nil => simp [Save, FindByID]
  | cons p rest ih =>
      obtain ⟨k, x⟩ := p
      by_cases hk : k = r.id
      · simp [Save, hk, FindByID]
      · simp [Save, hk, FindByID, ih]

theorem FindByID_Save_ne (st : Store) (r : Rocket) (id : String) (h : id ≠ r.id) :
    FindByID (Save st r) id = FindByID st id := by
  induction st with
  | nil =>
      simp [Save, FindByID]
      exact fun h' => absurd h'.symm h
  | cons p rest ih =>
      obtain ⟨k, x⟩ := p
      by_cases hk : k = r.id
      · have hne : ¬ (r.id = id) := fun h' => h h'.symm
        simp [Save, hk, FindByID, hne]
      · simp [Save, hk, FindByID, ih]

/-- A lookup in `Save st rN` either hits the saved record (when the key is
its id) or falls through to the original store. -/
theorem FindByID_Save_lookup (st : Store) (rN : Rocket) (id : String) (r' : Rocket)
    (h' : FindByID (Save st rN) id = some r') :
    (id = rN.id ∧ r' = rN) ∨ (id ≠ rN.id ∧ FindByID st id = some r') := by
  by_cases hid : id = rN.id
  · left
    refine ⟨hid, ?_⟩
    rw [hid, FindByID_Save_self st rN] at h'
    cases h'
    rfl
  · right
    rw [FindByID_Save_ne st rN id hid] at h'
    exact ⟨hid, h'⟩

/-! ### Reconciler step lemmas -/

theorem handleMessage_stale (st : Store) (msg : RocketMessage) (r : Rocket)
    (hfind : FindByID st msg.metadata.channel = some r)
    (hstale : msg.metadata.messageNumber ≤ r.lastMessageNumber) :
    handleMessage st msg = (st, none) := by
  simp [handleMessage, hfind, hstale]

theorem handleMessage_fresh (st : Store) (msg : RocketMessage)
    (hfind : FindByID st msg.metadata.channel = none) :
    handleMessage st msg = dispatchMessage st msg.metadata.channel msg := by
  simp [handleMessage, hfind]

theorem handleMessage_live (st : Store) (msg : RocketMessage) (r : Rocket)
    (hfind : FindByID st msg.metadata.channel = some r)
    (hlive : ¬ msg.metadata.messageNumber ≤ r.lastMessageNumber) :
    handleMessage st msg = dispatchMessage st msg.metadata.channel msg := by
  simp [handleMessage, hfind, hlive]

theorem handleRocketExploded_notfound (st : Store) (ch : String) (msg : RocketMessage)
    (hfind : FindByID st ch = none) :
    handleRocketExploded st ch msg = (st, some ("rocket not found: " ++ ch)) := by
  unfold handleRocketExploded
  rw [hfind]

theorem handleRocketExploded_obj (st : Store) (ch : String) (msg : RocketMessage)
    (rkt : Rocket) (f : PayloadFields)
    (hfind : FindByID st ch = some rkt) (hmm : msg.message = .obj f) :
    handleRocketExploded st ch msg =
      (Save st { rkt with
                   status := .StatusExploded
                   explosionReason := f.reason
                   speed := 0
                   lastMessageNumber := msg.metadata.messageNumber
                   lastUpdated := msg.metadata.messageTime }, none) := by
  unfold handleRocketExploded
  rw [hfind, hmm]
  rfl

theorem handleRocketExploded_bad (st : Store) (ch : String) (msg : RocketMessage)
    (rkt : Rocket)
    (hfind : FindByID st ch = some rkt) (hmm : msg.message = .bad) :
    handleRocketExploded st ch msg = (st, some "failed to unmarshal message") := by
  unfold handleRocketExploded
  rw [hfind, hmm]
  rfl

theorem handleRocketMissionChanged_notfound (st : Store) (ch : String)
    (msg : RocketMessage) (hfind : FindByID st ch = none) :
    handleRocketMissionChanged st ch msg = (st, some ("rocket not found: " ++ ch)) := by
  unfold handleRocketMissionChanged
  rw [hfind]

theorem handleRocketMissionChanged_obj (st : Store) (ch : String) (msg : RocketMessage)
    (rkt : Rocket) (f : PayloadFields)
    (hfind : FindByID st ch = some rkt) (hmm : msg.message = .obj f) :
    handleRocketMissionChanged st ch msg =
      (Save st { rkt with
                   mission := f.newMission
                   lastMessageNumber := msg.metadata.messageNumber
                   lastUpdated := msg.metadata.messageTime }, none) := by
  unfold handleRocketMissionChanged
  rw [hfind, hmm]
  rfl

theorem handleRocketMissionChanged_bad (st : Store) (ch : String) (msg : RocketMessage)
    (rkt : Rocket)
    (hfind : FindByID st ch = some rkt) (hmm : msg.message = .bad) :
    handleRocketMissionChanged st ch msg = (st, some "failed to unmarshal message") := by
  unfold handleRocketMissionChanged
  rw [hfind, hmm]
  rfl

theorem dispatchMessage_eq_exploded (st : Store) (ch : String) (msg : RocketMessage)
    (h1 : msg.metadata.messageType ≠ "RocketLaunched")
    (h2 : msg.metadata.messageType ≠ "RocketSpeedIncreased")
    (h3 : msg.metadata.messageType ≠ "RocketSpeedDecreased")
    (h4 : msg.metadata.messageType = "RocketExploded") :
    dispatchMessage st ch msg = handleRocketExploded st ch msg := by
  unfold dispatchMessage
  rw [if_neg h1, if_neg h2, if_neg h3, if_pos h4]

theorem dispatchMessage_eq_mission (st : Store) (ch : String) (msg : RocketMessage)
    (h1 : msg.metadata.messageType ≠ "RocketLaunched")
    (h2 : msg.metadata.messageType ≠ "RocketSpeedIncreased")
    (h3 : msg.metadata.messageType ≠ "RocketSpeedDecreased")
    (h4 : msg.metadata.messageType ≠ "RocketExploded")
    (h5 : msg.metadata.messageType = "RocketMissionChanged") :
    dispatchMessage st ch msg = handleRocketMissionChanged st ch msg := by
  unfold dispatchMessage
  rw [if_neg h1, if_neg h2, if_neg h3, if_neg h4, if_pos h5]

theorem dispatchMessage_eq_unknown (st : Store) (ch : String) (msg : RocketMessage)
    (h1 : msg.metadata.messageType ≠ "RocketLaunched")
    (h2 : msg.metadata.messageType ≠ "RocketSpeedIncreased")
    (h3 : msg.metadata.messageType ≠ "RocketSpeedDecreased")
    (h4 : msg.metadata.messageType ≠ "RocketExploded")
    (h5 : msg.metadata.messageType ≠ "RocketMissionChanged") :
    dispatchMessage st ch msg =
      (st, some ("unknown message type: " ++ msg.metadata.messageType)) := by
  unfold dispatchMessage
  rw [if_neg h1, if_neg h2, if_neg h3, if_neg h4, if_neg h5]

theorem handleRocketExploded_notfound_fst (st : Store) (ch : String)
    (msg : RocketMessage) (hfind : FindByID st ch = none) :
    (handleRocketExploded st ch msg).1 = st := by
  rw [handleRocketExploded_notfound st ch msg hfind]

theorem handleRocketExploded_bad_fst (st : Store) (ch : String) (msg : RocketMessage)
    (rkt : Rocket) (hfind : FindByID st ch = some rkt) (hmm : msg.message = .bad) :
    (handleRocketExploded st ch msg).1 = st := by
  rw [handleRocketExploded_bad st ch msg rkt hfind hmm]

theorem handleRocketExploded_obj_fst (st : Store) (ch : String) (msg : RocketMessage)
    (rkt : Rocket) (f : PayloadFields)
    (hfind : FindByID st ch = some rkt) (hmm : msg.message = .obj f) :
    (handleRocketExploded st ch msg).1 =
      Save st { rkt with
                  status := .StatusExploded
                  explosionReason := f.reason
                  speed := 0
                  lastMessageNumber := msg.metadata.messageNumber
                  lastUpdated := msg.metadata.messageTime } := by
  rw [handleRocketExploded_obj st ch msg rkt f hfind hmm]

theorem handleRocketMissionChanged_notfound_fst (st : Store) (ch : String)
    (msg : RocketMessage) (hfind : FindByID st ch = none) :
    (handleRocketMissionChanged st ch msg).1 = st := by
  rw [handleRocketMissionChanged_notfound st ch msg hfind]

theorem handleRocketMissionChanged_bad_fst (st : Store) (ch : String)
    (msg : RocketMessage) (rkt : Rocket)
    (hfind : FindByID st ch = some rkt) (hmm : msg.message = .bad) :
    (handleRocketMissionChanged st ch msg).1 = st := by
  rw [handleRocketMissionChanged_bad st ch msg rkt hfind hmm]

theorem handleRocketMissionChanged_obj_fst (st : Store) (ch : String)
    (msg : RocketMessage) (rkt : Rocket) (f : PayloadFields)
    (hfind : FindByID st ch = some rkt) (hmm : msg.message = .obj f) :
    (handleRocketMissionChanged st ch msg).1 =
      Save st { rkt with
                  mission := f.newMission
                  lastMessageNumber := msg.metadata.messageNumber
                  lastUpdated := msg.metadata.messageTime } := by
  rw [handleRocketMissionChanged_obj st ch msg rkt f hfind hmm]

/-- Case analysis of one dispatch: either an error leaves the store
untouched, or a record keyed by the message's channel and stamped with the
message's sequence number is saved. -/
theorem dispatchMessage_spec (st : Store) (msg : RocketMessage) (hwf : StoreWF st) :
    (∃ e, dispatchMessage st msg.metadata.channel msg = (st, some e)) ∨
    (∃ r', dispatchMessage st msg.metadata.channel msg = (Save st r', none) ∧
       r'.id = msg.metadata.channel ∧
       r'.lastMessageNumber = msg.metadata.messageNumber) := by
  unfold dispatchMessage
  split_ifs with h1 h2 h3 h4 h5
  · unfold handleRocketLaunched
    cases hp : parseLaunched msg.message with
    | none => exact Or.inl ⟨_, rfl⟩
    | some lm => exact Or.inr ⟨_, rfl, rfl, rfl⟩
  · unfold handleRocketSpeedChanged
    cases hf : FindByID st msg.metadata.channel with
    | none => exact Or.inl ⟨_, rfl⟩
    | some rocket =>
        cases hp : parseSpeedChanged msg.message with
        | none => exact Or.inl ⟨_, rfl⟩
        | some sm =>
            exact Or.inr ⟨_, rfl, FindByID_eq_id st _ rocket hwf hf, rfl⟩
  · unfold handleRocketSpeedChanged
    cases hf : FindByID st msg.metadata.channel with
    | none => exact Or.inl ⟨_, rfl⟩
    | some rocket =>
        cases hp : parseSpeedChanged msg.message with
        | none => exact Or.inl ⟨_, rfl⟩
        | some sm =>
            exact Or.inr ⟨_, rfl, FindByID_eq_id st _ rocket hwf hf, rfl⟩
  · unfold handleRocketExploded
    cases hf : FindByID st msg.metadata.channel with
    | none => exact Or.inl ⟨_, rfl⟩
    | some rocket =>
        cases hp : parseExploded msg.message with
        | none => exact Or.inl ⟨_, rfl⟩
        | some em =>
            exact Or.inr ⟨_, rfl, FindByID_eq_id st _ rocket hwf hf, rfl⟩
  · unfold handleRocketMissionChanged
    cases hf : FindByID st msg.metadata.channel with
    | none => exact Or.inl ⟨_, rfl⟩
    | some rocket =>
        cases hp : parseMissionChanged msg.message with
        | none => exact Or.inl ⟨_, rfl⟩
        | some mm =>
            exact Or.inr ⟨_, rfl, FindByID_eq_id st _ rocket hwf hf, rfl⟩
  · exact Or.inl ⟨_, rfl⟩

/-- Case analysis of one reconciler step: either an error leaves the store
untouched, or the message is discarded as stale, or a record keyed by the
message's channel, stamped with its sequence number, is saved and any
previously stored record had a strictly smaller sequence number. -/
theorem handleMessage_spec (st : Store) (msg : RocketMessage) (hwf : StoreWF st) :
    (∃ e, handleMessage st msg = (st, some e)) ∨
    (∃ r, FindByID st msg.metadata.channel = some r ∧
       msg.metadata.messageNumber ≤ r.lastMessageNumber ∧
       handleMessage st msg = (st, none)) ∨
    (∃ r', handleMessage st msg = (Save st r', none) ∧
       r'.id = msg.metadata.channel ∧
       r'.lastMessageNumber = msg.metadata.messageNumber ∧
       ∀ r, FindByID st msg.metadata.channel = some r →
         r.lastMessageNumber < msg.metadata.messageNumber) := by
  rcases Option.eq_none_or_eq_some (FindByID st msg.metadata.channel) with
    hfind | ⟨existing, hfind⟩
  case inr =>
      by_cases hstale : msg.metadata.messageNumber ≤ existing.lastMessageNumber
      · exact Or.inr (Or.inl ⟨existing, hfind, hstale,
          handleMessage_stale st msg existing hfind hstale⟩)
      · have heq := handleMessage_live st msg existing hfind hstale
        have hlt : ∀ r, FindByID st msg.metadata.channel = some r →
            r.lastMessageNumber < msg.metadata.messageNumber := by
          intro r hr
          rw [hfind] at hr
          cases hr
          omega
        rcases dispatchMessage_spec st msg hwf with ⟨e, he⟩ | ⟨r', hr', hid, hnum⟩
        · exact Or.inl ⟨e, heq.trans he⟩
        · exact Or.inr (Or.inr ⟨r', heq.trans hr', hid, hnum, hlt⟩)
  case inl =>
      have heq := handleMessage_fresh st msg hfind
      have hlt : ∀ r, FindByID st msg.metadata.channel = some r →
          r.lastMessageNumber < msg.metadata.messageNumber := by
        intro r hr
        rw [hfind] at hr
        cases hr
      rcases dispatchMessage_spec st msg hwf with ⟨e, he⟩ | ⟨r', hr', hid, hnum⟩
      · exact Or.inl ⟨e, heq.trans he⟩
      · exact Or.inr (Or.inr ⟨r', heq.trans hr', hid, hnum, hlt⟩)

/-- Successfully applying an `RocketExploded` event leaves the exploded
record with speed 0 and status EXPLODED. -/
theorem exploded_establishes (st : Store) (msg : RocketMessage)
    (fields : PayloadFields) (r0 : Rocket) (hwf : StoreWF st)
    (htype : msg.metadata.messageType = "RocketExploded")
    (hfields : msg.message = .obj fields)
    (hfind : FindByID st msg.metadata.channel = some r0)
    (hlive : r0.lastMessageNumber < msg.metadata.messageNumber) :
    ∃ r', FindByID (handleMessage st msg).1 msg.metadata.channel = some r' ∧
      r'.speed = 0 ∧ r'.status = .StatusExploded := by
  have heq := handleMessage_live st msg r0 hfind (by omega)
  rw [heq]
  unfold dispatchMessage
  rw [htype]
  simp only [reduceIte]
  unfold handleRocketExploded
  rw [hfind, hfields]
  simp only [parseExploded]
  have hid : r0.id = msg.metadata.channel :=
    FindByID_eq_id st msg.metadata.channel r0 hwf hfind
  refine ⟨{ r0 with
              status := .StatusExploded
              explosionReason := fields.reason
              speed := 0
              lastMessageNumber := msg.metadata.messageNumber
              lastUpdated := msg.metadata.messageTime }, ?_, rfl, rfl⟩
  rw [← hid]
  exact FindByID_Save_self st _

/-- A record that is EXPLODED with speed 0 stays so across any event that
is not a launch or a speed change (it may be stale, malformed, of unknown
type, an explosion, or a mission change). -/
theorem exploded_preserved (st : Store) (msg : RocketMessage) (id : String)
    (r r' : Rocket) (hwf : StoreWF st)
    (h : FindByID st id = some r)
    (hst : r.status = .StatusExploded) (hsp : r.speed = 0)
    (h1 : msg.metadata.messageType ≠ "RocketLaunched")
    (h2 : msg.metadata.messageType ≠ "RocketSpeedIncreased")
    (h3 : msg.metadata.messageType ≠ "RocketSpeedDecreased")
    (h' : FindByID (handleMessage st msg).1 id = some r') :
    r'.speed = 0 ∧ r'.status = .StatusExploded := by
  rcases Option.eq_none_or_eq_some (FindByID st msg.metadata.channel) with
    hfind | ⟨rkt, hfind⟩
  · rw [handleMessage_fresh st msg hfind] at h'
    by_cases h4 : msg.metadata.messageType = "RocketExploded"
    · rw [dispatchMessage_eq_exploded st _ msg h1 h2 h3 h4,
        handleRocketExploded_notfound_fst st _ msg hfind, h] at h'
      cases h'
      exact ⟨hsp, hst⟩
    · by_cases h5 : msg.metadata.messageType = "RocketMissionChanged"
      · rw [dispatchMessage_eq_mission st _ msg h1 h2 h3 h4 h5,
          handleRocketMissionChanged_notfound_fst st _ msg hfind, h] at h'
        cases h'
        exact ⟨hsp, hst⟩
      · rw [dispatchMessage_eq_unknown st _ msg h1 h2 h3 h4 h5] at h'
        have h'' : FindByID st id = some r' := h'
        rw [h] at h''
        cases h''
        exact ⟨hsp, hst⟩
  · by_cases hstale : msg.metadata.messageNumber ≤ rkt.lastMessageNumber
    · rw [handleMessage_stale st msg rkt hfind hstale] at h'
      have h'' : FindByID st id = some r' := h'
      rw [h] at h''
      cases h''
      exact ⟨hsp, hst⟩
    · rw [handleMessage_live st msg rkt hfind hstale] at h'
      by_cases h4 : msg.metadata.messageType = "RocketExploded"
      · rw [dispatchMessage_eq_exploded st _ msg h1 h2 h3 h4] at h'
        cases hmm : msg.message with
        | bad =>
            rw [handleRocketExploded_bad_fst st _ msg rkt hfind hmm, h] at h'
            cases h'
            exact ⟨hsp, hst⟩
        | obj f =>
            rw [handleRocketExploded_obj_fst st _ msg rkt f hfind hmm] at h'
            rcases FindByID_Save_lookup st _ id r' h' with ⟨hid, hr⟩ | ⟨hid, hfd⟩
            · subst hr
              exact ⟨rfl, rfl⟩
            · rw [h] at hfd
              cases hfd
              exact ⟨hsp, hst⟩
      · by_cases h5 : msg.metadata.messageType = "RocketMissionChanged"
        · rw [dispatchMessage_eq_mission st _ msg h1 h2 h3 h4 h5] at h'
          cases hmm : msg.message with
          | bad =>
              rw [handleRocketMissionChanged_bad_fst st _ msg rkt hfind hmm, h] at h'
              cases h'
              exact ⟨hsp, hst⟩
          | obj f =>
              rw [handleRocketMissionChanged_obj_fst st _ msg rkt f hfind hmm] at h'
              rcases FindByID_Save_lookup st _ id r' h' with ⟨hid, hr⟩ | ⟨hid, hfd⟩
              · have hidr : id = rkt.id := hid
                have hchid : rkt.id = msg.metadata.channel :=
                  FindByID_eq_id st _ rkt hwf hfind
                have hidch : id = msg.metadata.channel := by rw [hidr, hchid]
                rw [hidch, hfind] at h
                cases h
                subst hr
                exact ⟨hsp, hst⟩
              · rw [h] at hfd
                cases hfd
                exact ⟨hsp, hst⟩
        · rw [dispatchMessage_eq_unknown st _ msg h1 h2 h3 h4 h5] at h'
          have h'' : FindByID st id = some r' := h'
          rw [h] at h''
          cases h''
          exact ⟨hsp, hst⟩

/-! ### Claim theorems -/

/-- Claim C1: for every delivered event, if a record already exists for the
event's entity and the event's sequence number is at most the record's
`last_sequence`, the reconciler discards the event as a duplicate or
out-of-order replay — the stored state is unchanged and no error is
returned, regardless of the event's type or payload (the staleness check
runs before the type dispatch and before any payload parsing). -/
theorem stale_event_discarded (st : Store) (msg : RocketMessage) (r : Rocket)
    (hfind : FindByID st msg.metadata.channel = some r)
    (hstale : msg.metadata.messageNumber ≤ r.lastMessageNumber) :
    handleMessage st msg = (st, none) :=
  handleMessage_stale st msg r hfind hstale

theorem stale_event_discarded_witness :
    handleMessage stC staleDupMsg = (stC, none) :=
  stale_event_discarded stC staleDupMsg rocketA rfl (by decide)

/-- Claim C2, counterexample: after R1 is launched, sped up and exploded
(at which point its record shows status EXPLODED and speed 0), applying a
later `RocketSpeedIncreased{seq:4, by:100}` leaves R1 with speed 100 ≠ 0
while its status is still EXPLODED — so `speed == 0` does not hold under
every subsequent event application, refuting the claim as stated. -/
theorem explosion_terminal_counterexample :
    (∃ r, FindByID storeAfterExplosion "R1" = some r ∧
       r.status = .StatusExploded ∧ r.speed = 0) ∧
    (∃ r, FindByID (handleMessage storeAfterExplosion lateSpeedMsgR1).1 "R1" =
       some r ∧ r.status = .StatusExploded ∧ r.speed = 100) :=
  ⟨⟨_, rfl, rfl, rfl⟩, ⟨_, rfl, rfl, rfl⟩⟩

/-- Claim C2 as amended: applying an `Exploded` event to an existing record
establishes `speed == 0` and `status == EXPLODED`, and that state persists
across every subsequent event that is not a `Launched`, `SpeedIncreased` or
`SpeedDecreased` application (in particular across stale replays, mission
changes, repeated explosions, malformed payloads and unknown types); a
later live speed event can make the speed nonzero again and a later
re-launch can reset the status, which is what the counterexample
exhibits. -/
theorem explosion_invariant_amended (st : Store) (msg : RocketMessage)
    (hwf : StoreWF st) :
    (∀ fields r0, msg.metadata.messageType = "RocketExploded" →
       msg.message = .obj fields →
       FindByID st msg.metadata.channel = some r0 →
       r0.lastMessageNumber < msg.metadata.messageNumber →
       ∃ r', FindByID (handleMessage st msg).1 msg.metadata.channel = some r' ∧
         r'.speed = 0 ∧ r'.status = .StatusExploded) ∧
    (∀ id r r', FindByID st id = some r →
       r.status = .StatusExploded → r.speed = 0 →
       msg.metadata.messageType ≠ "RocketLaunched" →
       msg.metadata.messageType ≠ "RocketSpeedIncreased" →
       msg.metadata.messageType ≠ "RocketSpeedDecreased" →
       FindByID (handleMessage st msg).1 id = some r' →
       r'.speed = 0 ∧ r'.status = .StatusExploded) :=
  ⟨fun fields r0 ht hf hfd hl =>
     exploded_establishes st msg fields r0 hwf ht hf hfd hl,
   fun id r r' h hstx hspx h1 h2 h3 h' =>
     exploded_preserved st msg id r r' hwf h hstx hspx h1 h2 h3 h'⟩

theorem explosion_invariant_amended_witness :
    ∃ r', FindByID (handleMessage stBeforeExplosion explodeMsgR1).1
        explodeMsgR1.metadata.channel = some r' ∧
      r'.speed = 0 ∧ r'.status = .StatusExploded :=
  (explosion_invariant_amended stBeforeExplosion explodeMsgR1 (by decide)).1
    { reason := "PRESSURE_VESSEL_FAILURE" }
    { id := "R1", type := "Falcon-9", speed := 3500, mission := "ARTEMIS",
      status := .StatusActive, explosionReason := "",
      lastMessageNumber := 2, lastUpdated := "t2" }
    rfl rfl rfl (by decide)

/-- Claim C3, counterexample: `ChannelPubSub.Publish` on a full
(one-slot, occupied) open bus drops the message and returns the `nil`
error — the caller is told success, not a `BufferFull` rejection, refuting
the claim for this bus implementation. -/
theorem publish_bufferfull_counterexample :
    ChannelPubSub.Publish fullBus speedMsgR1 = (fullBus, none) := rfl

/-- Claim C3 as amended: with the buffer at capacity the event is dropped
in both bus implementations, but only the `channel` package's
`PubSub.Publish` signals the condition to the caller (the
`"channel full"` error); the older `ChannelPubSub.Publish` drops silently
and reports success. -/
theorem publish_bufferfull_amended (pc : ChannelPubSub) (pn : PubSub)
    (m m' : RocketMessage)
    (hcl : pc.closed = false) (hfc : pc.bufferSize ≤ pc.messageChan.length)
    (hfn : pn.bufferSize ≤ pn.messageChan.length) :
    ChannelPubSub.Publish pc m = (pc, none) ∧
    PubSub.Publish pn false m' = (pn, some "channel full") := by
  constructor
  · unfold ChannelPubSub.Publish
    simp [hcl, Nat.not_lt.mpr hfc]
  · unfold PubSub.Publish
    simp [Nat.not_lt.mpr hfn]

theorem publish_bufferfull_amended_witness :
    ChannelPubSub.Publish fullBus speedMsgR1 = (fullBus, none) ∧
    PubSub.Publish fullBusN false speedMsgR1 = (fullBusN, some "channel full") :=
  publish_bufferfull_amended fullBus fullBusN speedMsgR1 speedMsgR1 rfl
    (by decide) (by decide)

/-- Claim C4, counterexample: for R1 (launched at seq 1 with speed 500),
take E1 = `SpeedIncreased{seq:2, by:100}` and E2 =
`SpeedIncreased{seq:3, by:50}`.  In order [E1, E2] the final speed is 650;
in order [E2, E1] the stale E1 is discarded and the final speed is 550 —
the two final states differ, refuting the claimed order independence. -/
theorem order_independence_counterexample :
    (handleMessage (handleMessage st1 speedIncA).1 speedIncB).1 ≠
      (handleMessage (handleMessage st1 speedIncB).1 speedIncA).1 := by decide

/-- Claim C4 as amended: for two events on the same entity with
sequence numbers n < m, applying them in the reversed order [E2, E1]
yields the same final state as applying E2 alone, provided E2's
application reported no error: E1 is then discarded as stale (no state
change, no error).  The final state equals that of [E1, E2] only in
special cases (e.g. when E2 overwrites the whole record), not in
general, as the counterexample shows. -/
theorem reversed_pair_drops_stale (st : Store) (m1 m2 : RocketMessage)
    (hwf : StoreWF st)
    (hch : m1.metadata.channel = m2.metadata.channel)
    (hlt : m1.metadata.messageNumber < m2.metadata.messageNumber)
    (hok : (handleMessage st m2).2 = none) :
    handleMessage (handleMessage st m2).1 m1 = ((handleMessage st m2).1, none) := by
  rcases handleMessage_spec st m2 hwf with ⟨e, he⟩ | ⟨r, hfind, hstale, heq⟩ |
    ⟨r', heq, hid, hnum, _⟩
  · rw [he] at hok
    cases hok
  · rw [heq]
    exact handleMessage_stale st m1 r (hch ▸ hfind) (by omega)
  · rw [heq]
    refine handleMessage_stale (Save st r') m1 r' ?_ (by omega)
    rw [hch, ← hid]
    exact FindByID_Save_self st r'

theorem reversed_pair_drops_stale_witness :
    handleMessage (handleMessage st1 speedIncB).1 speedIncA =
      ((handleMessage st1 speedIncB).1, none) :=
  reversed_pair_drops_stale st1 speedIncA speedIncB (by decide) rfl (by decide) rfl

/-- Claim C5: event application is idempotent — re-applying a message
(identical channel and sequence number) never changes the store a second
time, and when the first application succeeded (`nil` error) the replay is
discarded as stale with no error. -/
theorem apply_idempotent (st : Store) (msg : RocketMessage) (hwf : StoreWF st) :
    (handleMessage (handleMessage st msg).1 msg).1 = (handleMessage st msg).1 ∧
    ((handleMessage st msg).2 = none →
      handleMessage (handleMessage st msg).1 msg = ((handleMessage st msg).1, none)) := by
  rcases handleMessage_spec st msg hwf with ⟨e, he⟩ | ⟨r, hfind, hstale, heq⟩ |
    ⟨r', heq, hid, hnum, _⟩
  · constructor
    · rw [he]
      simp [he]
    · intro hnone
      rw [he] at hnone
      cases hnone
  · constructor
    · rw [heq]
      simp [heq]
    · intro _
      rw [heq]
      simp [heq]
  · have hfind2 : FindByID (Save st r') msg.metadata.channel = some r' := by
      rw [← hid]
      exact FindByID_Save_self st r'
    have hstale2 := handleMessage_stale (Save st r') msg r' hfind2 (le_of_eq hnum.symm)
    constructor
    · rw [heq]
      simp [hstale2]
    · intro _
      rw [heq]
      simpa using hstale2

theorem apply_idempotent_witness :
    (handleMessage (handleMessage [] launchMsgR1).1 launchMsgR1).1 =
      (handleMessage [] launchMsgR1).1 :=
  (apply_idempotent [] launchMsgR1 (by decide)).1

/-- Claim C6: `last_sequence` is monotonically non-decreasing across event
applications — a record's stored sequence number never decreases, and
whenever the step changes a record at all it stamps it with the event's
sequence number, which is strictly greater than the previously stored
value (events with a sequence at or below the stored value leave the
record unchanged). -/
theorem lastSequence_monotone (st : Store) (msg : RocketMessage) (id : String)
    (r r' : Rocket) (hwf : StoreWF st)
    (h : FindByID st id = some r)
    (h' : FindByID (handleMessage st msg).1 id = some r') :
    r.lastMessageNumber ≤ r'.lastMessageNumber ∧
    (r' ≠ r → id = msg.metadata.channel ∧
       r'.lastMessageNumber = msg.metadata.messageNumber ∧
       r.lastMessageNumber < msg.metadata.messageNumber) := by
  rcases handleMessage_spec st msg hwf with ⟨e, he⟩ | ⟨rs, hfind, hstale, heq⟩ |
    ⟨rn, heq, hid, hnum, hlt⟩
  · rw [he] at h'
    simp at h'
    rw [h] at h'
    cases h'
    exact ⟨le_refl _, fun hne => absurd rfl hne⟩
  · rw [heq] at h'
    simp at h'
    rw [h] at h'
    cases h'
    exact ⟨le_refl _, fun hne => absurd rfl hne⟩
  · rw [heq] at h'
    simp at h'
    by_cases hideq : id = rn.id
    · rw [hideq, FindByID_Save_self st rn] at h'
      cases h'
      have hch : id = msg.metadata.channel := by rw [hideq, hid]
      have hr : FindByID st msg.metadata.channel = some r := by rw [← hch]; exact h
      have := hlt r hr
      exact ⟨by omega, fun _ => ⟨hch, hnum, this⟩⟩
    · rw [FindByID_Save_ne st rn id hideq] at h'
      rw [h] at h'
      cases h'
      exact ⟨le_refl _, fun hne => absurd rfl hne⟩

theorem lastSequence_monotone_witness :
    rocketA.lastMessageNumber ≤ rocketA7.lastMessageNumber ∧
    (rocketA7 ≠ rocketA → "R1" = liveSpeedMsg.metadata.channel ∧
       rocketA7.lastMessageNumber = liveSpeedMsg.metadata.messageNumber ∧
       rocketA.lastMessageNumber < liveSpeedMsg.metadata.messageNumber) :=
  lastSequence_monotone stC liveSpeedMsg "R1" rocketA rocketA7 (by decide) rfl
    (by decide)

/-- Claim C7: an event whose type is not `RocketLaunched`, addressed to an
entity with no existing record, is dropped with an error and creates no
placeholder: the store is unchanged and a lookup of the entity still
reports nothing; for the four defined non-launch types the error is the
missing-entity precondition error `"rocket not found: <id>"` (an undefined
type yields the unknown-message-type error instead). -/
theorem missing_entity_rejected (st : Store) (msg : RocketMessage)
    (habs : FindByID st msg.metadata.channel = none)
    (hneq : msg.metadata.messageType ≠ "RocketLaunched") :
    (handleMessage st msg).1 = st ∧
    (∃ e, (handleMessage st msg).2 = some e) ∧
    FindByID (handleMessage st msg).1 msg.metadata.channel = none ∧
    ((msg.metadata.messageType = "RocketSpeedIncreased" ∨
      msg.metadata.messageType = "RocketSpeedDecreased" ∨
      msg.metadata.messageType = "RocketExploded" ∨
      msg.metadata.messageType = "RocketMissionChanged") →
      (handleMessage st msg).2 =
        some ("rocket not found: " ++ msg.metadata.channel)) := by
  have heq := handleMessage_fresh st msg habs
  rw [heq]
  unfold dispatchMessage
  split_ifs with h1 h2 h3 h4 h5
  · exact absurd h1 hneq
  · unfold handleRocketSpeedChanged
    rw [habs]
    exact ⟨rfl, ⟨_, rfl⟩, habs, fun _ => rfl⟩
  · unfold handleRocketSpeedChanged
    rw [habs]
    exact ⟨rfl, ⟨_, rfl⟩, habs, fun _ => rfl⟩
  · unfold handleRocketExploded
    rw [habs]
    exact ⟨rfl, ⟨_, rfl⟩, habs, fun _ => rfl⟩
  · unfold handleRocketMissionChanged
    rw [habs]
    exact ⟨rfl, ⟨_, rfl⟩, habs, fun _ => rfl⟩
  · refine ⟨rfl, ⟨_, rfl⟩, habs, fun hmem => ?_⟩
    rcases hmem with hm | hm | hm | hm
    · exact absurd hm h2
    · exact absurd hm h3
    · exact absurd hm h4
    · exact absurd hm h5

theorem missing_entity_rejected_witness :
    (handleMessage [] speedMsgR404).1 = [] ∧
    (∃ e, (handleMessage [] speedMsgR404).2 = some e) ∧
    FindByID (handleMessage [] speedMsgR404).1 speedMsgR404.metadata.channel = none ∧
    ((speedMsgR404.metadata.messageType = "RocketSpeedIncreased" ∨
      speedMsgR404.metadata.messageType = "RocketSpeedDecreased" ∨
      speedMsgR404.metadata.messageType = "RocketExploded" ∨
      speedMsgR404.metadata.messageType = "RocketMissionChanged") →
      (handleMessage [] speedMsgR404).2 =
        some ("rocket not found: " ++ speedMsgR404.metadata.channel)) :=
  missing_entity_rejected [] speedMsgR404 rfl (by decide)

/-- Claim C8: launching R1 into a fresh store with
`{seq:1, kind:"Falcon-9", speed:500, mission:"ARTEMIS"}` creates an ACTIVE
record with speed 500, mission ARTEMIS and `last_sequence` 1, and then
applying `SpeedIncreased{seq:2, by:3000}` yields speed 3500 and
`last_sequence` 2 (the delta is added to the current speed). -/
theorem scenario_launch_then_speed :
    FindByID (handleMessage [] launchMsgR1).1 "R1" =
      some { id := "R1", type := "Falcon-9", speed := 500, mission := "ARTEMIS",
             status := .StatusActive, explosionReason := "",
             lastMessageNumber := 1, lastUpdated := "t1" } ∧
    FindByID (handleMessage (handleMessage [] launchMsgR1).1 speedMsgR1).1 "R1" =
      some { id := "R1", type := "Falcon-9", speed := 3500, mission := "ARTEMIS",
             status := .StatusActive, explosionReason := "",
             lastMessageNumber := 2, lastUpdated := "t2" } := ⟨rfl, rfl⟩

/-- Claim C9: `FindAll` returns one copy of every stored record (a
permutation of the stored values), sorted by ascending id, and `GetCount`
equals the length of that list; when the stored keys are distinct (as the
Go map guarantees), `GetCount` is the number of distinct stored ids. -/
theorem findAll_reports_all_sorted (st : Store) :
    (FindAll st).Perm (st.map Prod.snd) ∧
    List.Sorted rocketIdLE (FindAll st) ∧
    GetCount st = (FindAll st).length ∧
    ((st.map Prod.fst).Nodup → GetCount st = (st.map Prod.fst).toFinset.card) := by
  refine ⟨List.perm_insertionSort _ _, List.sorted_insertionSort _ _, ?_, ?_⟩
  · have h := (List.perm_insertionSort rocketIdLE (st.map Prod.snd)).length_eq
    simp [GetCount, FindAll, h]
  · intro hnd
    rw [GetCount, List.toFinset_card_of_nodup hnd, List.length_map]

theorem findAll_reports_all_sorted_witness :
    GetCount stTwo = (stTwo.map Prod.fst).toFinset.card :=
  (findAll_reports_all_sorted stTwo).2.2.2 (by decide)

/-- Claim C10 (implicit): after `Close`, every `Publish` on the
channel-based bus returns the `nil` error while the message is discarded
and never enqueued — exactly the value a successful publish returns, so a
producer cannot distinguish a post-close drop from a success. -/
theorem publish_after_close_noop (p q : ChannelPubSub) (m m' : RocketMessage)
    (hq : q.closed = false) (hroom : q.messageChan.length < q.bufferSize) :
    ChannelPubSub.Publish (ChannelPubSub.Close p) m = (ChannelPubSub.Close p, none) ∧
    (ChannelPubSub.Publish q m').2 = none := by
  have hcl : (ChannelPubSub.Close p).closed = true := by
    unfold ChannelPubSub.Close
    by_cases h : p.closed
    · simp [h]
    · simp [h]
  constructor
  · unfold ChannelPubSub.Publish
    simp [hcl]
  · unfold ChannelPubSub.Publish
    simp [hq, hroom]

theorem publish_after_close_noop_witness :
    ChannelPubSub.Publish (ChannelPubSub.Close fullBus) launchMsgR1 =
      (ChannelPubSub.Close fullBus, none) ∧
    (ChannelPubSub.Publish openBus speedMsgR1).2 = none :=
  publish_after_close_noop fullBus openBus launchMsgR1 speedMsgR1 rfl (by decide)
